import Mathlib

/-!
Verification development for the True Skate map exporter
(`exporter.py`): a shallow embedding of the mesh generators, the
transform stage, the scene assembler and the format writer, followed by
theorems about the embedded definitions.

Python floats are modelled by an abstract linear ordered field equipped
with the math functions the exporter calls (`math.cos`, `math.sin`,
`math.sqrt`, `math.pi`).  Structural facts (counts, index bounds, line
layout) are proved for every such field; facts that need genuine
trigonometric identities are proved over `ℝ` with the standard
interpretation.
-/

namespace TSMap

/-- Scalar interpretation: a linear ordered field together with the
math functions used by the exporter. -/
class TrigField (α : Type) extends LinearOrderedField α where
  cos : α → α
  sin : α → α
  sqrt : α → α
  pi : α

/-- The standard interpretation of the scalars as real numbers. -/
noncomputable instance : TrigField ℝ where
  cos := Real.cos
  sin := Real.sin
  sqrt := Real.sqrt
  pi := Real.pi

/-- A computable rational interpretation, used to evaluate the
structural definitions (counts, index lists, line layout) on concrete
inputs; the trig functions are interpreted by constants, which no
structural statement depends on. -/
instance : TrigField ℚ where
  cos := fun _ => 1
  sin := fun _ => 0
  sqrt := fun _ => 0
  pi := 0

variable {α : Type} [TrigField α]

/-- Embedding of the `Vertex` dataclass: position, normal, UV and
color. -/
@[ext]
structure Vertex (α : Type) where
  x : α
  y : α
  z : α
  nx : α
  ny : α
  nz : α
  u : α
  v : α
  r : ℕ
  g : ℕ
  b : ℕ
  a : ℕ
deriving Repr

/-- Embedding of the `Mesh` dataclass: vertices, triangle indices and a
material index. -/
structure Mesh (α : Type) where
  vertices : List (Vertex α)
  indices : List ℕ
  material_index : ℕ
deriving Repr

/-- Vertex construction with the default normal, UV and color fields of
the Python dataclass. -/
def mkVertex (x y z nx ny nz u v : α) : Vertex α :=
  { x := x, y := y, z := z, nx := nx, ny := ny, nz := nz, u := u, v := v,
    r := 255, g := 255, b := 255, a := 255 }

/-- The eight corners of `generate_box`. -/
def boxCorners (width height depth offset_x offset_y offset_z : α) :
    List (α × α × α) :=
  let hw := width / 2
  let hh := height / 2
  let hd := depth / 2
  [(-hw + offset_x, -hh + offset_y, -hd + offset_z),
   ( hw + offset_x, -hh + offset_y, -hd + offset_z),
   ( hw + offset_x,  hh + offset_y, -hd + offset_z),
   (-hw + offset_x,  hh + offset_y, -hd + offset_z),
   (-hw + offset_x, -hh + offset_y,  hd + offset_z),
   ( hw + offset_x, -hh + offset_y,  hd + offset_z),
   ( hw + offset_x,  hh + offset_y,  hd + offset_z),
   (-hw + offset_x,  hh + offset_y,  hd + offset_z)]

/-- The face table of `generate_box`: corner indices and the face
normal. -/
def boxFaces (α : Type) [TrigField α] : List (List ℕ × (α × α × α)) :=
  [([0, 1, 2, 3], (0, 0, -1)),
   ([5, 4, 7, 6], (0, 0, 1)),
   ([4, 0, 3, 7], (-1, 0, 0)),
   ([1, 5, 6, 2], (1, 0, 0)),
   ([3, 2, 6, 7], (0, 1, 0)),
   ([4, 5, 1, 0], (0, -1, 0))]

/-- Embedding of `generate_box`: for each face, four vertices with the
face normal and corner-local UVs are appended, followed by the six
indices of the two triangles of the face, based at the current vertex
count. -/
def generate_box (width height depth offset_x offset_y offset_z : α) :
    Mesh α :=
  let corners := boxCorners width height depth offset_x offset_y offset_z
  let res := (boxFaces α).foldl
    (fun (acc : List (Vertex α) × List ℕ) fn =>
      let base := acc.1.length
      let faceVerts := fn.1.enum.map (fun p =>
        let c := corners.getD p.2 (0, 0, 0)
        let u : α := if p.1 = 1 ∨ p.1 = 2 then 1 else 0
        let v : α := if p.1 = 2 ∨ p.1 = 3 then 1 else 0
        mkVertex c.1 c.2.1 c.2.2 fn.2.1 fn.2.2.1 fn.2.2.2 u v)
      (acc.1 ++ faceVerts,
       acc.2 ++ [base, base + 1, base + 2, base, base + 2, base + 3]))
    ([], [])
  { vertices := res.1, indices := res.2, material_index := 0 }

/-- The curved ride surface of `generate_quarter_pipe`: one vertex
pair (left and right edge) per angular step. -/
def qpCurveVerts (radius width : α) (segments : ℕ) : List (Vertex α) :=
  (List.range (segments + 1)).flatMap (fun i =>
    let angle := (TrigField.pi / 2) * ((i : α) / (segments : α))
    let x := radius * (1 - TrigField.cos angle)
    let y := radius * TrigField.sin angle
    let nx := -TrigField.cos angle
    let ny := TrigField.sin angle
    let u := (i : α) / (segments : α)
    [mkVertex (x - radius) y (-(width / 2)) nx ny 0 u 0,
     mkVertex (x - radius) y (width / 2) nx ny 0 u 1])

/-- The triangle indices of the curved surface of
`generate_quarter_pipe`. -/
def qpCurveIdx (segments : ℕ) : List ℕ :=
  (List.range segments).flatMap (fun i =>
    let base := i * 2
    [base, base + 2, base + 3, base, base + 3, base + 1])

/-- One side panel of `generate_quarter_pipe`: the arc vertices plus
the bottom corner and top corner vertices, at `z` with normal
`(0, 0, nz)`. -/
def qpSideVerts (radius : α) (segments : ℕ) (z nz : α) :
    List (Vertex α) :=
  ((List.range (segments + 1)).map (fun (i : ℕ) =>
    let angle := (TrigField.pi / 2) * ((i : α) / (segments : α))
    let x := radius * (1 - TrigField.cos angle)
    let y := radius * TrigField.sin angle
    mkVertex (x - radius) y z 0 0 nz (x / radius) (y / radius)))
  ++ [mkVertex (-radius) 0 z 0 0 nz 0 0,
      mkVertex 0 radius z 0 0 nz 1 1]

/-- Embedding of `generate_quarter_pipe`: a swept quarter circle of
`segments + 1` vertex pairs, two triangulated side panels fanned from a
bottom corner vertex, and the triangle index lists of the three
parts. -/
def generate_quarter_pipe (radius width : α) (segments : ℕ) : Mesh α :=
  let curveVerts := qpCurveVerts radius width segments
  let side_start := curveVerts.length
  let leftSide := qpSideVerts radius segments (-(width / 2)) (-1)
  let verts2 := curveVerts ++ leftSide
  let bottom_left := verts2.length - 2
  let leftIdx := (List.range segments).flatMap (fun i =>
    [bottom_left, side_start + i, side_start + i + 1])
  let right_start := verts2.length
  let rightSide := qpSideVerts radius segments (width / 2) 1
  let verts3 := verts2 ++ rightSide
  let bottom_right := verts3.length - 2
  let rightIdx := (List.range segments).flatMap (fun i =>
    [bottom_right, right_start + i + 1, right_start + i])
  { vertices := verts3, indices := qpCurveIdx segments ++ leftIdx ++ rightIdx,
    material_index := 1 }

/-- Embedding of the cross-product face-normal helper of
`generate_pyramid`, with the zero-length fallback `(0, 1, 0)`. -/
def calc_normal (p1 p2 p3 : α × α × α) : α × α × α :=
  let a1 := p2.1 - p1.1
  let a2 := p2.2.1 - p1.2.1
  let a3 := p2.2.2 - p1.2.2
  let b1 := p3.1 - p1.1
  let b2 := p3.2.1 - p1.2.1
  let b3 := p3.2.2 - p1.2.2
  let nx := a2 * b3 - a3 * b2
  let ny := a3 * b1 - a1 * b3
  let nz := a1 * b2 - a2 * b1
  let length := TrigField.sqrt (nx * nx + ny * ny + nz * nz)
  if 0 < length then (nx / length, ny / length, nz / length) else (0, 1, 0)

/-- Embedding of `generate_pyramid`: four triangular side faces with a
computed face normal plus a flat bottom quad. -/
def generate_pyramid (base_radius height : α) : Mesh α :=
  let corners : List (α × α × α) :=
    [(-base_radius, 0, -base_radius),
     ( base_radius, 0, -base_radius),
     ( base_radius, 0,  base_radius),
     (-base_radius, 0,  base_radius)]
  let apex : α × α × α := (0, height, 0)
  let res := ([(0, 1), (1, 2), (2, 3), (3, 0)] : List (ℕ × ℕ)).foldl
    (fun (acc : List (Vertex α) × List ℕ) c =>
      let p1 := corners.getD c.1 (0, 0, 0)
      let p2 := corners.getD c.2 (0, 0, 0)
      let p3 := apex
      let n := calc_normal p1 p2 p3
      let base := acc.1.length
      (acc.1 ++
        [mkVertex p1.1 p1.2.1 p1.2.2 n.1 n.2.1 n.2.2 0 0,
         mkVertex p2.1 p2.2.1 p2.2.2 n.1 n.2.1 n.2.2 1 0,
         mkVertex p3.1 p3.2.1 p3.2.2 n.1 n.2.1 n.2.2 (1 / 2) 1],
       acc.2 ++ [base, base + 1, base + 2]))
    ([], [])
  let base := res.1.length
  let bottomVerts := corners.map (fun c =>
    mkVertex c.1 c.2.1 c.2.2 0 (-1) 0
      ((c.1 + base_radius) / (2 * base_radius))
      ((c.2.2 + base_radius) / (2 * base_radius)))
  { vertices := res.1 ++ bottomVerts,
    indices := res.2 ++ [base, base + 2, base + 1, base, base + 3, base + 2],
    material_index := 2 }

/-- The loop body of the main bar of `generate_rail`: one ring segment
of the cylinder, four vertices and six indices based at the current
vertex count. -/
def railBarStep (length height radius : α)
    (acc : List (Vertex α) × List ℕ) (i : ℕ) :
    List (Vertex α) × List ℕ :=
  let segments : ℕ := 8
  let angle1 := 2 * TrigField.pi * (i : α) / (segments : α)
  let angle2 := 2 * TrigField.pi * ((i : α) + 1) / (segments : α)
  let y1 := height + radius * TrigField.cos angle1
  let z1 := radius * TrigField.sin angle1
  let y2 := height + radius * TrigField.cos angle2
  let z2 := radius * TrigField.sin angle2
  let nx1 := TrigField.cos angle1
  let nz1 := TrigField.sin angle1
  let nx2 := TrigField.cos angle2
  let nz2 := TrigField.sin angle2
  let base := acc.1.length
  (acc.1 ++
    [mkVertex (-(length / 2)) y1 z1 0 nx1 nz1 0 ((i : α) / (segments : α)),
     mkVertex (-(length / 2)) y2 z2 0 nx2 nz2 0 (((i : α) + 1) / (segments : α)),
     mkVertex (length / 2) y1 z1 0 nx1 nz1 1 ((i : α) / (segments : α)),
     mkVertex (length / 2) y2 z2 0 nx2 nz2 1 (((i : α) + 1) / (segments : α))],
   acc.2 ++ [base, base + 1, base + 3, base, base + 3, base + 2])

/-- The loop body of one support post of `generate_rail`: one ring
segment of the post at position `sx`. -/
def railSupportStep (height sx : α)
    (acc : List (Vertex α) × List ℕ) (i : ℕ) :
    List (Vertex α) × List ℕ :=
  let segments : ℕ := 8
  let support_radius : α := 1 / 20
  let angle1 := 2 * TrigField.pi * (i : α) / (segments : α)
  let angle2 := 2 * TrigField.pi * ((i : α) + 1) / (segments : α)
  let x1 := sx + support_radius * TrigField.cos angle1
  let z1 := support_radius * TrigField.sin angle1
  let x2 := sx + support_radius * TrigField.cos angle2
  let z2 := support_radius * TrigField.sin angle2
  let base := acc.1.length
  (acc.1 ++
    [mkVertex x1 0 z1 (TrigField.cos angle1) 0 (TrigField.sin angle1) 0 0,
     mkVertex x2 0 z2 (TrigField.cos angle2) 0 (TrigField.sin angle2) 1 0,
     mkVertex x1 height z1 (TrigField.cos angle1) 0 (TrigField.sin angle1) 0 1,
     mkVertex x2 height z2 (TrigField.cos angle2) 0 (TrigField.sin angle2) 1 1],
   acc.2 ++ [base, base + 2, base + 3, base, base + 3, base + 1])

/-- Embedding of `generate_rail`: a cylindrical tube of 8 segments
along the length axis plus two cylindrical support posts near the
ends. -/
def generate_rail (length height radius : α) : Mesh α :=
  let segments : ℕ := 8
  let bar := (List.range segments).foldl
    (railBarStep length height radius) ([], [])
  let support_positions : List α := [-(length / 2) + 1 / 2, length / 2 - 1 / 2]
  let res := support_positions.foldl
    (fun acc0 sx =>
      (List.range segments).foldl (railSupportStep height sx) acc0)
    bar
  { vertices := res.1, indices := res.2, material_index := 3 }

/-- The box sub-mesh of step `i` of `generate_stairs`: dimensions
`(step_width, step_height, step_depth)`, raised by
`step_height * (i + 0.5)` and pushed back by `step_depth * i`. -/
def stairStepBox (step_height step_depth step_width : α) (i : ℕ) : Mesh α :=
  generate_box step_width step_height step_depth
    0 (step_height * ((i : α) + 1 / 2)) (-(step_depth * (i : α)))

/-- The loop body of `generate_stairs`: append the vertices of the box
of step `i` and its indices rebased by the running vertex count. -/
def stairsStep (step_height step_depth step_width : α)
    (acc : List (Vertex α) × List ℕ) (i : ℕ) :
    List (Vertex α) × List ℕ :=
  let box := stairStepBox step_height step_depth step_width i
  let base := acc.1.length
  (acc.1 ++ box.vertices, acc.2 ++ box.indices.map (fun idx => idx + base))

/-- Embedding of `generate_stairs`: `num_steps` box sub-meshes with
increasing height offset and decreasing depth offset, concatenated with
index rebasing by the running vertex count. -/
def generate_stairs (num_steps : ℕ) (step_height step_depth step_width : α) :
    Mesh α :=
  let res := (List.range num_steps).foldl
    (stairsStep step_height step_depth step_width) ([], [])
  { vertices := res.1, indices := res.2, material_index := 1 }

/-- Embedding of `generate_ledge`: a box resting on the ground with
material index 1. -/
def generate_ledge (length height depth : α) : Mesh α :=
  let box := generate_box length height depth 0 (height / 2) 0
  { box with material_index := 1 }

/-- Embedding of `generate_kicker`: a quadratic Bezier profile swept
across the width plus bottom and back closing faces. -/
def generate_kicker (length height width : α) : Mesh α :=
  let segments : ℕ := 8
  let curveVerts := (List.range (segments + 1)).flatMap (fun i =>
    let t := (i : α) / (segments : α)
    let x := (1 - t) ^ 2 * 0 + 2 * (1 - t) * t * (length * (3 / 4)) +
      t ^ 2 * length
    let y := (1 - t) ^ 2 * 0 + 2 * (1 - t) * t * 0 + t ^ 2 * height
    let dx := 2 * (1 - t) * (length * (3 / 4) - 0) +
      2 * t * (length - length * (3 / 4))
    let dy := 2 * t * height
    let length_n := TrigField.sqrt (dx * dx + dy * dy)
    let nxy : α × α :=
      if 0 < length_n then (-(dy / length_n), dx / length_n) else (0, 1)
    [mkVertex x y (-(width / 2)) nxy.1 nxy.2 0 t 0,
     mkVertex x y (width / 2) nxy.1 nxy.2 0 t 1])
  let curveIdx := (List.range segments).flatMap (fun i =>
    let base := i * 2
    [base, base + 2, base + 3, base, base + 3, base + 1])
  let base1 := curveVerts.length
  let bottomVerts :=
    [mkVertex 0 0 (-(width / 2)) 0 (-1) 0 0 0,
     mkVertex 0 0 (width / 2) 0 (-1) 0 0 1,
     mkVertex length 0 (width / 2) 0 (-1) 0 1 1,
     mkVertex length 0 (-(width / 2)) 0 (-1) 0 1 0]
  let bottomIdx := [base1, base1 + 1, base1 + 2, base1, base1 + 2, base1 + 3]
  let base2 := (curveVerts ++ bottomVerts).length
  let backVerts :=
    [mkVertex length 0 (-(width / 2)) 1 0 0 0 0,
     mkVertex length 0 (width / 2) 1 0 0 1 0,
     mkVertex length height (width / 2) 1 0 0 1 1,
     mkVertex length height (-(width / 2)) 1 0 0 0 1]
  let backIdx := [base2, base2 + 1, base2 + 2, base2, base2 + 2, base2 + 3]
  { vertices := curveVerts ++ bottomVerts ++ backVerts,
    indices := curveIdx ++ bottomIdx ++ backIdx,
    material_index := 4 }

/-- Embedding of `generate_manual_pad`: a box resting on the ground
with material index 1. -/
def generate_manual_pad (length height width : α) : Mesh α :=
  let box := generate_box length height width 0 (height / 2) 0
  { box with material_index := 1 }

/-- Embedding of `generate_bench`: a seat box plus two leg boxes
concatenated with index rebasing. -/
def generate_bench : Mesh α :=
  let seat := generate_box (2 : α) (1 / 10) (1 / 2) 0 (1 / 2) 0
  let res := ([-(4 / 5), 4 / 5] : List α).foldl
    (fun (acc : List (Vertex α) × List ℕ) x_offset =>
      let base := acc.1.length
      let leg := generate_box (1 / 10 : α) (1 / 2) (1 / 2) x_offset (1 / 4) 0
      (acc.1 ++ leg.vertices, acc.2 ++ leg.indices.map (fun idx => idx + base)))
    (seat.vertices, seat.indices)
  { vertices := res.1, indices := res.2, material_index := 5 }

/-- Embedding of `generate_ground_flat`: a thin flat box whose top sits
at y = 0. -/
def generate_ground_flat (size : α) : Mesh α :=
  let box := generate_box size (1 / 2) size 0 (-(1 / 4)) 0
  { box with material_index := 0 }

/-- Embedding of `generate_slope`: an angled top quad with the fixed
normal `(0, 0.894, -0.447)` plus bottom, back and two triangular side
faces. -/
def generate_slope (length height width : α) : Mesh α :=
  let topVerts :=
    [mkVertex 0 0 (-(width / 2)) 0 (447 / 500) (-(447 / 1000)) 0 0,
     mkVertex 0 0 (width / 2) 0 (447 / 500) (-(447 / 1000)) 0 1,
     mkVertex length height (width / 2) 0 (447 / 500) (-(447 / 1000)) 1 1,
     mkVertex length height (-(width / 2)) 0 (447 / 500) (-(447 / 1000)) 1 0]
  let topIdx : List ℕ := [0, 1, 2, 0, 2, 3]
  let b1 := topVerts.length
  let bottomVerts :=
    [mkVertex 0 0 (-(width / 2)) 0 (-1) 0 0 0,
     mkVertex 0 0 (width / 2) 0 (-1) 0 0 1,
     mkVertex length 0 (width / 2) 0 (-1) 0 1 1,
     mkVertex length 0 (-(width / 2)) 0 (-1) 0 1 0]
  let bottomIdx := [b1, b1 + 2, b1 + 1, b1, b1 + 3, b1 + 2]
  let b2 := (topVerts ++ bottomVerts).length
  let backVerts :=
    [mkVertex length 0 (-(width / 2)) 1 0 0 0 0,
     mkVertex length 0 (width / 2) 1 0 0 1 0,
     mkVertex length height (width / 2) 1 0 0 1 1,
     mkVertex length height (-(width / 2)) 1 0 0 0 1]
  let backIdx := [b2, b2 + 1, b2 + 2, b2, b2 + 2, b2 + 3]
  let b3 := (topVerts ++ bottomVerts ++ backVerts).length
  let side1Verts :=
    [mkVertex 0 0 (-(width / 2)) 0 0 (-1) 0 0,
     mkVertex length 0 (-(width / 2)) 0 0 (-1) 1 0,
     mkVertex length height (-(width / 2)) 0 0 (-1) 1 1]
  let side1Idx := [b3, b3 + 1, b3 + 2]
  let b4 := (topVerts ++ bottomVerts ++ backVerts ++ side1Verts).length
  let side2Verts :=
    [mkVertex 0 0 (width / 2) 0 0 1 0 0,
     mkVertex length height (width / 2) 0 0 1 1 1,
     mkVertex length 0 (width / 2) 0 0 1 1 0]
  let side2Idx := [b4, b4 + 1, b4 + 2]
  { vertices := topVerts ++ bottomVerts ++ backVerts ++ side1Verts ++ side2Verts,
    indices := topIdx ++ bottomIdx ++ backIdx ++ side1Idx ++ side2Idx,
    material_index := 1 }

/-- A placement position, the `{x, y, z}` dictionary of the input with
all components resolved. -/
structure Vec3 (α : Type) where
  x : α
  y : α
  z : α
deriving Repr

/-- Embedding of `transform_vertex`: scale the position, rotate the
position and the normal around the Y axis, translate by the placement
offset, and multiply the final position by the fixed unit-scale
constant 100. -/
def transform_vertex (v : Vertex α) (pos : Vec3 α) (rotY scale : α) :
    Vertex α :=
  let x := v.x * scale
  let y := v.y * scale
  let z := v.z * scale
  let cos_a := TrigField.cos rotY
  let sin_a := TrigField.sin rotY
  let new_x := x * cos_a - z * sin_a
  let new_z := x * sin_a + z * cos_a
  let new_nx := v.nx * cos_a - v.nz * sin_a
  let new_nz := v.nx * sin_a + v.nz * cos_a
  let ts_scale : α := 100
  { x := (new_x + pos.x) * ts_scale,
    y := (y + pos.y) * ts_scale,
    z := (new_z + pos.z) * ts_scale,
    nx := new_nx, ny := v.ny, nz := new_nz,
    u := v.u, v := v.v,
    r := v.r, g := v.g, b := v.b, a := v.a }

/-- Embedding of the `OBJECT_GENERATORS` dispatch table, with the
default parameters of each generator spelled out at the call sites of
the zero-argument thunks. -/
def OBJECT_GENERATORS (α : Type) [TrigField α] :
    List (String × (Unit → Mesh α)) :=
  [("ground-flat", fun _ => generate_ground_flat 10),
   ("ground-slope", fun _ => generate_slope 5 2 5),
   ("quarter-pipe", fun _ => generate_quarter_pipe 3 6 12),
   ("half-pipe", fun _ => generate_quarter_pipe 3 6 12),
   ("kicker", fun _ => generate_kicker 2 (3 / 2) 3),
   ("pyramid", fun _ => generate_pyramid 3 2),
   ("rail-flat", fun _ => generate_rail 6 (4 / 5) (2 / 25)),
   ("rail-down", fun _ => generate_rail 6 (4 / 5) (2 / 25)),
   ("ledge", fun _ => generate_ledge 5 (3 / 5) (4 / 5)),
   ("manual-pad", fun _ => generate_manual_pad 4 (3 / 10) 2),
   ("stairs-3", fun _ => generate_stairs 3 (2 / 5) 1 3),
   ("stairs-5", fun _ => generate_stairs 5 (2 / 5) 1 3),
   ("stairs-hubba", fun _ => generate_stairs 4 (2 / 5) 1 3),
   ("bench", fun _ => generate_bench),
   ("trash-can", fun _ => generate_box (3 / 5) (4 / 5) (3 / 5) 0 (2 / 5) 0)]

/-- An input object descriptor: the optional fields of one entry of the
`objects` list of the input JSON. -/
structure ObjDesc (α : Type) where
  type : Option String
  position : Option (Vec3 α)
  rotation : Option α
  scale : Option α

/-- The object type with the default applied (`obj.get('type',
'ground-flat')`). -/
def descType (o : ObjDesc α) : String := o.type.getD "ground-flat"

/-- The placement position with the default applied. -/
def descPos (o : ObjDesc α) : Vec3 α := o.position.getD ⟨0, 0, 0⟩

/-- The Y rotation angle with the default applied. -/
def descRot (o : ObjDesc α) : α := o.rotation.getD 0

/-- The uniform scale with the default applied. -/
def descScale (o : ObjDesc α) : α := o.scale.getD 1

/-- Dispatch one object descriptor: look up its generator, generate and
transform the local mesh, preserving the index list and material index;
`none` on a registry miss. -/
def assembleObject (o : ObjDesc α) : Option (Mesh α) :=
  match (OBJECT_GENERATORS α).lookup (descType o) with
  | some gen =>
      let mesh := gen ()
      some { vertices := mesh.vertices.map
               (fun v => transform_vertex v (descPos o) (descRot o) (descScale o)),
             indices := mesh.indices,
             material_index := mesh.material_index }
  | none => none

/-- The synthesized 50-unit ground plane that `export_skatepark`
prepends to every scene, transformed with the fixed placement slightly
below the origin. -/
def ground_mesh (α : Type) [TrigField α] : Mesh α :=
  let ground := generate_ground_flat (50 : α)
  { vertices := ground.vertices.map
      (fun v => transform_vertex v ⟨0, -(1 / 4), 0⟩ 0 1),
    indices := ground.indices,
    material_index := 0 }

/-- The skip report printed for an unknown object type. -/
def skipReport (o : ObjDesc α) : String :=
  "! Unknown object type: " ++ descType o

/-- The loop body of the scene assembly of `export_skatepark`: a
dispatched mesh is appended to the scene; a registry miss appends a
skip report to the diagnostics instead. -/
def assembleStep (acc : List (Mesh α) × List String) (o : ObjDesc α) :
    List (Mesh α) × List String :=
  match assembleObject o with
  | some m => (acc.1 ++ [m], acc.2)
  | none => (acc.1, acc.2 ++ [skipReport o])

/-- Embedding of the scene assembly of `export_skatepark`: the ground
mesh is prepended, then each descriptor is dispatched in input order;
the second component collects the reported skip diagnostics. -/
def assembleScene (objs : List (ObjDesc α)) :
    List (Mesh α) × List String :=
  objs.foldl assembleStep ([ground_mesh α], [])

/-- The fixed material color table of `write_trueskate_txt`. -/
def material_colors : List (ℕ × ℕ × ℕ) :=
  [(128, 128, 130),
   (100, 100, 105),
   (85, 85, 90),
   (180, 180, 180),
   (136, 85, 51),
   (139, 69, 19)]

/-- The lines of one material block of `write_trueskate_txt`. -/
def materialBlock (c : ℕ × ℕ × ℕ) : List String :=
  ["#Material",
   "1 #Material Type (Solid)",
   "#Color",
   toString c.1, toString c.2.1, toString c.2.2, "255",
   "1.000000 #Specular",
   "5.000000 #G Blend Sharpness",
   "0.800000 #G Blend Level",
   "0.500000 #G Blend Mode",
   "#G Shadow Color",
   "180", "180", "180", "255",
   "#G Highlight Color",
   "255", "255", "255", "255",
   "0 #Texture index",
   "0",
   "0"]

/-- The per-mesh header block of `write_trueskate_txt`: index count,
vertex count, normals marker, flags, colour-set count, UV-set count and
the mesh marker. -/
def meshHeaderBlock (m : Mesh α) : List String :=
  [toString m.indices.length ++ " #Num Indices",
   toString m.vertices.length ++ " #Num Vertices",
   "#Normals (Flags |= 0x1)",
   "1 #Flags",
   "2 #Num Colour Sets",
   "2 #Num Uv Sets",
   "#Mesh"]

/-- The serialized attribute lines of one vertex: normal, position, UV
set 1, UV set 2 (a duplicate of set 1), color set 1 and the fixed
opaque-white color set 2.  `fmt` is the fixed 6-decimal float
formatter. -/
def vertexLines (fmt : α → String) (v : Vertex α) : List String :=
  [fmt v.nx, fmt v.ny, fmt v.nz,
   fmt v.x, fmt v.y, fmt v.z,
   fmt v.u, fmt v.v,
   fmt v.u, fmt v.v,
   toString v.r, toString v.g, toString v.b, toString v.a,
   "255", "255", "255", "255"]

/-- The vertex-data block of one mesh. -/
def meshVertexBlock (fmt : α → String) (m : Mesh α) : List String :=
  m.vertices.flatMap (vertexLines fmt)

/-- The index-data block of one mesh: the local zero-based indices of
the mesh, one decimal per line. -/
def meshIndexBlock (m : Mesh α) : List String :=
  m.indices.map toString

/-- The constant prelude of the output: magic sequence, version line,
visibility marker and the fixed constant line. -/
def filePrelude : List String :=
  ["84", "65", "83", "75", "1003 #Version", "<VIS ", "17"]

/-- Embedding of `write_trueskate_txt` as the list of output lines, in
the order the Python code appends them. -/
def write_trueskate_txt (fmt : α → String) (meshes : List (Mesh α))
    (textures : List String) : List String :=
  let total_vertices := (meshes.map (fun m => m.vertices.length)).sum
  filePrelude
    ++ [toString textures.length ++ " #Num Textures"]
    ++ textures
    ++ ["6 #Num Materials"]
    ++ material_colors.flatMap materialBlock
    ++ [toString total_vertices ++ " #Num Vertices"]
    ++ meshes.flatMap meshHeaderBlock
    ++ meshes.flatMap (meshVertexBlock fmt)
    ++ meshes.flatMap meshIndexBlock

/-!
Specification-side definitions.  The four step functions below follow
the wording of the specification of the transform stage (scale, then
rotate position and normal about the Y axis, then translate, then
multiply the position by the unit-scale constant); they are compared
with the embedded `transform_vertex` by a refinement theorem.
-/

/-- Specification step 1: scale the position uniformly. -/
def scaleStep (s : α) (v : Vertex α) : Vertex α :=
  { v with x := v.x * s, y := v.y * s, z := v.z * s }

/-- Specification step 2: rotate position and normal around the Y axis
by `θ` in the XZ plane; the Y components of position and normal are
untouched. -/
def rotateYStep (θ : α) (v : Vertex α) : Vertex α :=
  { v with
    x := v.x * TrigField.cos θ - v.z * TrigField.sin θ,
    z := v.x * TrigField.sin θ + v.z * TrigField.cos θ,
    nx := v.nx * TrigField.cos θ - v.nz * TrigField.sin θ,
    nz := v.nx * TrigField.sin θ + v.nz * TrigField.cos θ }

/-- Specification step 3: translate the position by the placement
offset. -/
def translateStep (p : Vec3 α) (v : Vertex α) : Vertex α :=
  { v with x := v.x + p.x, y := v.y + p.y, z := v.z + p.z }

/-- Specification step 4: multiply the position, and only the position,
by the fixed unit-scale constant 100. -/
def unitScaleStep (v : Vertex α) : Vertex α :=
  { v with x := v.x * 100, y := v.y * 100, z := v.z * 100 }

/-- The mesh invariant of the specification: the index list length is
a multiple of 3 and every index is strictly below the vertex count. -/
def meshOK (m : Mesh α) : Prop :=
  m.indices.length % 3 = 0 ∧ ∀ i ∈ m.indices, i < m.vertices.length

/-- The total vertex count the writer emits as the single global
vertex-count line. -/
def totalVertexCount (meshes : List (Mesh α)) : ℕ :=
  (meshes.map (fun m => m.vertices.length)).sum

/-!
Theorems.
-/

/-- The real interpretation of the abstract cosine is `Real.cos`. -/
theorem trigCos_real (x : ℝ) : TrigField.cos x = Real.cos x := rfl

/-- The real interpretation of the abstract sine is `Real.sin`. -/
theorem trigSin_real (x : ℝ) : TrigField.sin x = Real.sin x := rfl

/-- C2: the transform stage computes, in this exact order, scaling of
the position, Y-axis rotation of position and normal in the XZ plane
(with the Y components untouched), translation of the position by the
placement offset, and multiplication of the position, and only the
position, by the fixed unit-scale constant 100; UV and color pass
through unchanged.  The right-hand side is the composition of the four
specification steps. -/
theorem C2_transform_order {α : Type} [TrigField α]
    (v : Vertex α) (p : Vec3 α) (θ s : α) :
    transform_vertex v p θ s =
      unitScaleStep (translateStep p (rotateYStep θ (scaleStep s v))) := rfl

/-- C7 counterexample: the claim says that rotating by θ and then by
−θ (scale 1, position 0) returns the position with the ×100 unit-scale
factor applied once across the two calls.  At θ = 0 and the unit vertex
the composed x coordinate is 10000, not 100·1: the unit-scale factor is
applied in each call. -/
theorem C7_claim_counterexample :
    ¬ ((transform_vertex (transform_vertex (mkVertex (1 : ℝ) 0 0 0 1 0 0 0)
          ⟨0, 0, 0⟩ 0 1) ⟨0, 0, 0⟩ (-0) 1).x
        = 100 * (mkVertex (1 : ℝ) 0 0 0 1 0 0 0).x) := by
  simp [transform_vertex, mkVertex, trigCos_real, trigSin_real]

/-- C7 amended: rotating by θ and then by −θ (scale 1, position 0)
recovers the normal exactly and the position multiplied by 10000, the
unit-scale factor 100 being applied once per call, hence twice across
the two calls; all other vertex fields are unchanged. -/
theorem C7_rotation_roundtrip_amended (v : Vertex ℝ) (θ : ℝ) :
    transform_vertex (transform_vertex v ⟨0, 0, 0⟩ θ 1) ⟨0, 0, 0⟩ (-θ) 1 =
      { v with x := 10000 * v.x, y := 10000 * v.y, z := 10000 * v.z } := by
  have h := Real.sin_sq_add_cos_sq θ
  apply Vertex.ext <;>
    simp only [transform_vertex, trigCos_real, trigSin_real,
      Real.cos_neg, Real.sin_neg]
  case x => linear_combination 10000 * v.x * h
  case y => ring
  case z => linear_combination 10000 * v.z * h
  case nx => linear_combination v.nx * h
  case nz => linear_combination v.nz * h

/-- C1: the writer output is the fixed prelude, texture and material
sections and the global vertex-count line, followed by the per-mesh
header blocks of all meshes, one seven-line block per mesh in scene
order, written consecutively, followed by all vertex-data lines and all
index lines; in particular every header line precedes the first
vertex-data line of any mesh. -/
theorem C1_headers_before_vertex_data {α : Type} [TrigField α]
    (fmt : α → String) (meshes : List (Mesh α)) (textures : List String) :
    write_trueskate_txt fmt meshes textures =
      (filePrelude ++ [toString textures.length ++ " #Num Textures"] ++ textures
        ++ ["6 #Num Materials"] ++ material_colors.flatMap materialBlock
        ++ [toString (totalVertexCount meshes) ++ " #Num Vertices"])
      ++ meshes.flatMap meshHeaderBlock
      ++ (meshes.flatMap (meshVertexBlock fmt) ++ meshes.flatMap meshIndexBlock) := by
  simp [write_trueskate_txt, totalVertexCount, List.append_assoc]

/-- C3: the tail of the writer output is the concatenation, in scene
order, of one index block per mesh, each block being the meshes own
zero-based indices rendered one decimal per line, with no vertex-count
offsets of preceding meshes added. -/
theorem C3_index_blocks_local {α : Type} [TrigField α]
    (fmt : α → String) (meshes : List (Mesh α)) (textures : List String) :
    write_trueskate_txt fmt meshes textures =
      (filePrelude ++ [toString textures.length ++ " #Num Textures"] ++ textures
        ++ ["6 #Num Materials"] ++ material_colors.flatMap materialBlock
        ++ [toString (totalVertexCount meshes) ++ " #Num Vertices"]
        ++ meshes.flatMap meshHeaderBlock
        ++ meshes.flatMap (meshVertexBlock fmt))
      ++ meshes.flatMap (fun m => m.indices.map toString) := by
  have hblock : meshIndexBlock (α := α) =
      fun (m : Mesh α) => m.indices.map toString := rfl
  simp [write_trueskate_txt, totalVertexCount, hblock, List.append_assoc]

/-- Meshes related by equal vertex and index lists produce equal writer
sections. -/
theorem forall2_mesh_sections {α : Type} [TrigField α] (fmt : α → String)
    {m1 m2 : List (Mesh α)}
    (h : List.Forall₂ (fun a b => a.vertices = b.vertices ∧ a.indices = b.indices)
      m1 m2) :
    m1.map (fun m => m.vertices.length) = m2.map (fun m => m.vertices.length)
    ∧ m1.flatMap meshHeaderBlock = m2.flatMap meshHeaderBlock
    ∧ m1.flatMap (meshVertexBlock fmt) = m2.flatMap (meshVertexBlock fmt)
    ∧ m1.flatMap meshIndexBlock = m2.flatMap meshIndexBlock := by
  induction h with
  | nil => exact ⟨rfl, rfl, rfl, rfl⟩
  | cons hab hrest ih =>
      obtain ⟨hv, hi⟩ := hab
      refine ⟨?_, ?_, ?_, ?_⟩ <;>
        simp [meshHeaderBlock, meshVertexBlock, meshIndexBlock, hv, hi,
          ih.1, ih.2.1, ih.2.2.1, ih.2.2.2]

/-- C9: the writer output never depends on the material index of any
mesh: two scenes whose mesh lists agree on vertices and indices
elementwise produce character-for-character identical line lists. -/
theorem C9_material_index_independence {α : Type} [TrigField α]
    (fmt : α → String) (textures : List String) {m1 m2 : List (Mesh α)}
    (h : List.Forall₂ (fun a b => a.vertices = b.vertices ∧ a.indices = b.indices)
      m1 m2) :
    write_trueskate_txt fmt m1 textures = write_trueskate_txt fmt m2 textures := by
  have h4 := forall2_mesh_sections fmt h
  simp [write_trueskate_txt, h4.1, h4.2.1, h4.2.2.1, h4.2.2.2]

/-- C9 witness: two singleton scenes differing only in the material
index produce identical output. -/
theorem C9_material_index_independence_witness :
    (List.Forall₂ (fun a b => a.vertices = b.vertices ∧ a.indices = b.indices)
      [({ vertices := [mkVertex (0 : ℚ) 0 0 0 1 0 0 0], indices := [0, 0, 0],
          material_index := 0 } : Mesh ℚ)]
      [({ vertices := [mkVertex (0 : ℚ) 0 0 0 1 0 0 0], indices := [0, 0, 0],
          material_index := 5 } : Mesh ℚ)])
    ∧ write_trueskate_txt (fun _ => "")
        [({ vertices := [mkVertex (0 : ℚ) 0 0 0 1 0 0 0], indices := [0, 0, 0],
            material_index := 0 } : Mesh ℚ)] ["concrete_gray"]
      = write_trueskate_txt (fun _ => "")
        [({ vertices := [mkVertex (0 : ℚ) 0 0 0 1 0 0 0], indices := [0, 0, 0],
            material_index := 5 } : Mesh ℚ)] ["concrete_gray"] :=
  ⟨List.Forall₂.cons ⟨rfl, rfl⟩ List.Forall₂.nil,
   C9_material_index_independence (fun _ => "") ["concrete_gray"]
     (List.Forall₂.cons ⟨rfl, rfl⟩ List.Forall₂.nil)⟩

/-- The scene-assembly fold, characterized: the meshes are the
dispatched descriptors in input order and the diagnostics are the skip
reports of the registry misses in input order. -/
theorem assembleScene_go {α : Type} [TrigField α] (objs : List (ObjDesc α)) :
    ∀ ms ds, objs.foldl assembleStep (ms, ds) =
      (ms ++ objs.filterMap assembleObject,
       ds ++ (objs.filter (fun o => (assembleObject o).isNone)).map skipReport) := by
  induction objs with
  | nil => intro ms ds; simp
  | cons o rest ih =>
      intro ms ds
      cases h : assembleObject o with
      | some m => simp [assembleStep, h, ih]
      | none => simp [assembleStep, h, ih]

/-- The assembled scene is the ground mesh followed by the dispatched
descriptors; the diagnostics are the skip reports of the misses. -/
theorem assembleScene_spec {α : Type} [TrigField α] (objs : List (ObjDesc α)) :
    assembleScene objs =
      (ground_mesh α :: objs.filterMap assembleObject,
       (objs.filter (fun o => (assembleObject o).isNone)).map skipReport) := by
  simpa [assembleScene] using assembleScene_go objs [ground_mesh α] []

/-- Removing an element on which `f` returns `none` does not change a
`filterMap`. -/
theorem filterMap_eraseIdx_of_none {β γ : Type} (f : β → Option γ) :
    ∀ (l : List β) (i : ℕ) (hi : i < l.length),
      f l[i] = none → l.filterMap f = (l.eraseIdx i).filterMap f := by
  intro l
  induction l with
  | nil => intro i hi; simp at hi
  | cons a t ih =>
      intro i hi hf
      cases i with
      | zero => simp at hf; simp [List.eraseIdx, List.filterMap_cons, hf]
      | succ j =>
          have hj : j < t.length := by simpa using hi
          have hf2 : f t[j] = none := by simpa using hf
          simp [List.eraseIdx, List.filterMap_cons, ih j hj hf2]

/-- Removing an element satisfying `p` shortens a filter by exactly
one. -/
theorem filter_eraseIdx_length {β : Type} (p : β → Bool) :
    ∀ (l : List β) (i : ℕ) (hi : i < l.length),
      p l[i] = true →
      (l.filter p).length = ((l.eraseIdx i).filter p).length + 1 := by
  intro l
  induction l with
  | nil => intro i hi; simp at hi
  | cons a t ih =>
      intro i hi hp
      cases i with
      | zero => simp at hp; simp [List.eraseIdx, List.filter_cons, hp]
      | succ j =>
          have hj : j < t.length := by simpa using hi
          have hp2 : p t[j] = true := by simpa using hp
          cases hpa : p a <;>
            simp [List.eraseIdx, List.filter_cons, hpa, ih j hj hp2]

/-- C5: when one descriptor has a type identifier not present in the
object registry, the assembled scene equals the scene assembled from
the list with that descriptor removed, the skip is reported as a
diagnostic list entry (the diagnostics gain exactly one entry, and the
skip report of the descriptor is among them), and assembly still
returns a value for the whole list. -/
theorem C5_unknown_type_skipped {α : Type} [TrigField α]
    (objs : List (ObjDesc α)) (i : ℕ) (hi : i < objs.length)
    (hmiss : (OBJECT_GENERATORS α).lookup (descType objs[i]) = none) :
    (assembleScene objs).1 = (assembleScene (objs.eraseIdx i)).1
    ∧ skipReport objs[i] ∈ (assembleScene objs).2
    ∧ (assembleScene objs).2.length
        = ((assembleScene (objs.eraseIdx i)).2).length + 1 := by
  have hnone : assembleObject objs[i] = none := by
    simp [assembleObject, hmiss]
  refine ⟨?_, ?_, ?_⟩
  · simp [assembleScene_spec, filterMap_eraseIdx_of_none _ objs i hi hnone]
  · simp only [assembleScene_spec]
    exact List.mem_map_of_mem skipReport
      (List.mem_filter.mpr ⟨List.getElem_mem hi, by simp [hnone]⟩)
  · simp only [assembleScene_spec, List.length_map]
    exact filter_eraseIdx_length _ objs i hi (by simp [hnone])

/-- C5 witness: a one-element object list with the unknown type
identifier `not-a-real-type` produces the same scene as the empty
list. -/
theorem C5_unknown_type_skipped_witness :
    ((OBJECT_GENERATORS ℚ).lookup
        (descType ((⟨some "not-a-real-type", none, none, none⟩ : ObjDesc ℚ))) = none)
    ∧ (assembleScene [(⟨some "not-a-real-type", none, none, none⟩ : ObjDesc ℚ)]).1 =
        (assembleScene
          (([(⟨some "not-a-real-type", none, none, none⟩ : ObjDesc ℚ)]).eraseIdx 0)).1 :=
  ⟨by rfl,
   (C5_unknown_type_skipped
     [(⟨some "not-a-real-type", none, none, none⟩ : ObjDesc ℚ)] 0
     (by decide) (by rfl)).1⟩

/-- C10: a descriptor that lacks a type field entirely is not skipped
and produces no diagnostic: the default type `ground-flat` is
substituted and a transformed default-size (10.0) flat-ground mesh is
appended, in addition to the always-prepended synthesized ground mesh
(`ground_mesh`, built from the 50-unit ground plane). -/
theorem C10_missing_type_default {α : Type} [TrigField α]
    (o : ObjDesc α) (h : o.type = none) :
    assembleScene [o] =
      ([ground_mesh α,
        { vertices := (generate_ground_flat (10 : α)).vertices.map
            (fun v => transform_vertex v (descPos o) (descRot o) (descScale o)),
          indices := (generate_ground_flat (10 : α)).indices,
          material_index := (generate_ground_flat (10 : α)).material_index }],
       []) := by
  have ht : descType o = "ground-flat" := by simp [descType, h]
  have ha : assembleObject o = some
      { vertices := (generate_ground_flat (10 : α)).vertices.map
          (fun v => transform_vertex v (descPos o) (descRot o) (descScale o)),
        indices := (generate_ground_flat (10 : α)).indices,
        material_index := (generate_ground_flat (10 : α)).material_index } := by
    simp [assembleObject, ht, OBJECT_GENERATORS, List.lookup]
  simp [assembleScene_spec, ha]

/-- C10 witness: the all-defaults descriptor (no type field) yields the
ground mesh plus one transformed default flat-ground mesh and no
diagnostics. -/
theorem C10_missing_type_default_witness :
    assembleScene [(⟨none, none, none, none⟩ : ObjDesc ℚ)] =
      ([ground_mesh ℚ,
        { vertices := (generate_ground_flat (10 : ℚ)).vertices.map
            (fun v => transform_vertex v
              (descPos (⟨none, none, none, none⟩ : ObjDesc ℚ))
              (descRot (⟨none, none, none, none⟩ : ObjDesc ℚ))
              (descScale (⟨none, none, none, none⟩ : ObjDesc ℚ))),
          indices := (generate_ground_flat (10 : ℚ)).indices,
          material_index := (generate_ground_flat (10 : ℚ)).material_index }],
       []) :=
  C10_missing_type_default _ rfl

/-- Length of a `flatMap` over a range whose blocks have constant
length. -/
theorem length_flatMap_const {β : Type} (n k : ℕ) (f : ℕ → List β)
    (h : ∀ i, (f i).length = k) :
    ((List.range n).flatMap f).length = n * k := by
  induction n with
  | zero => simp
  | succ m ih => rw [List.range_succ]; simp [ih, h, Nat.succ_mul]

/-- Sum of a constant function over a range. -/
theorem sum_map_const_range (n k : ℕ) (f : ℕ → ℕ) (h : ∀ i, f i = k) :
    ((List.range n).map f).sum = n * k := by
  induction n with
  | zero => simp
  | succ m ih => rw [List.range_succ]; simp [ih, h, Nat.succ_mul]

/-- Every step box of the stairs has 24 vertices. -/
theorem stairStepBox_vcount (sh sd sw : α) (i : ℕ) :
    (stairStepBox sh sd sw i).vertices.length = 24 := rfl

/-- Every step box of the stairs has 36 indices. -/
theorem stairStepBox_icount (sh sd sw : α) (i : ℕ) :
    (stairStepBox sh sd sw i).indices.length = 36 := rfl

/-- The stairs fold builds the concatenated vertices and the rebased
indices of the step boxes, the rebase offset of step `i` being
`24 * i`. -/
theorem stairs_fold (sh sd sw : α) : ∀ n : ℕ,
    (List.range n).foldl (stairsStep sh sd sw) ([], []) =
      ((List.range n).flatMap (fun i => (stairStepBox sh sd sw i).vertices),
       (List.range n).flatMap (fun i =>
         (stairStepBox sh sd sw i).indices.map (fun idx => idx + 24 * i))) := by
  intro n
  induction n with
  | zero => simp
  | succ m ih =>
      rw [List.range_succ, List.foldl_append, ih]
      have hlen : ((List.range m).flatMap
          (fun i => (stairStepBox sh sd sw i).vertices)).length = m * 24 :=
        length_flatMap_const m 24 _ (fun i => stairStepBox_vcount sh sd sw i)
      simp [stairsStep, hlen, Nat.mul_comm]

/-- Characterization of `generate_stairs` with the concrete rebase
offsets. -/
theorem generate_stairs_char (n : ℕ) (sh sd sw : α) :
    generate_stairs n sh sd sw =
      { vertices := (List.range n).flatMap
          (fun i => (stairStepBox sh sd sw i).vertices),
        indices := (List.range n).flatMap (fun i =>
          (stairStepBox sh sd sw i).indices.map (fun idx => idx + 24 * i)),
        material_index := 1 } := by
  simp [generate_stairs, stairs_fold]

/-- C6: the stairs generator returns the concatenation of `N` box
sub-meshes of dimensions (step_width, step_height, step_depth), sub-mesh
`i` having vertical offset `step_height * (i + 0.5)` and depth offset
`-step_depth * i` (this is `stairStepBox`), with the indices of sub-mesh
`i` rebased by the running vertex count of the preceding sub-meshes. -/
theorem C6_stairs_concatenation (n : ℕ) (sh sd sw : α)
    (hn : 1 ≤ n) (h1 : 0 < sh) (h2 : 0 < sd) (h3 : 0 < sw) :
    generate_stairs n sh sd sw =
      { vertices := (List.range n).flatMap
          (fun i => (stairStepBox sh sd sw i).vertices),
        indices := (List.range n).flatMap (fun i =>
          (stairStepBox sh sd sw i).indices.map (fun idx =>
            idx + ((List.range i).map
              (fun j => (stairStepBox sh sd sw j).vertices.length)).sum)),
        material_index := 1 } := by
  have hsum : ∀ i : ℕ, ((List.range i).map
      (fun j => (stairStepBox sh sd sw j).vertices.length)).sum = 24 * i := by
    intro i
    rw [sum_map_const_range i 24 _ (fun j => stairStepBox_vcount sh sd sw j)]
    exact Nat.mul_comm i 24
  simp only [hsum]
  exact generate_stairs_char n sh sd sw

/-- C6 witness: two steps of dimensions (3, 2/5, 1) over the rational
interpretation. -/
theorem C6_stairs_concatenation_witness :
    (1 ≤ 2) ∧
    generate_stairs 2 (2 / 5 : ℚ) 1 3 =
      { vertices := (List.range 2).flatMap
          (fun i => (stairStepBox (2 / 5 : ℚ) 1 3 i).vertices),
        indices := (List.range 2).flatMap (fun i =>
          (stairStepBox (2 / 5 : ℚ) 1 3 i).indices.map (fun idx =>
            idx + ((List.range i).map
              (fun j => (stairStepBox (2 / 5 : ℚ) 1 3 j).vertices.length)).sum)),
        material_index := 1 } :=
  ⟨by norm_num,
   C6_stairs_concatenation 2 (2 / 5 : ℚ) 1 3 (by norm_num) (by norm_num)
     (by norm_num) (by norm_num)⟩

/-- The curve of the quarter pipe has `2 * (segments + 1)` vertices. -/
theorem qpCurveVerts_length (r w : α) (s : ℕ) :
    (qpCurveVerts r w s).length = (s + 1) * 2 :=
  length_flatMap_const (s + 1) 2 _ (fun i => rfl)

/-- Each side panel of the quarter pipe has `segments + 3` vertices. -/
theorem qpSideVerts_length (r : α) (s : ℕ) (z nz : α) :
    (qpSideVerts r s z nz).length = s + 3 := by
  rw [qpSideVerts, List.length_append, List.length_map, List.length_range]
  rfl

/-- The curve of the quarter pipe has `6 * segments` indices. -/
theorem qpCurveIdx_length (s : ℕ) : (qpCurveIdx s).length = s * 6 :=
  length_flatMap_const s 6 _ (fun i => rfl)

/-- Length of the fan-triangle index lists of the quarter pipe side
panels. -/
theorem length_flatMap_triple (n a b : ℕ) :
    ((List.range n).flatMap (fun i => [a, b + i, b + i + 1])).length = n * 3 :=
  length_flatMap_const n 3 _ (fun i => rfl)

/-- Length of the mirrored fan-triangle index lists. -/
theorem length_flatMap_triple2 (n a b : ℕ) :
    ((List.range n).flatMap (fun i => [a, b + i + 1, b + i])).length = n * 3 :=
  length_flatMap_const n 3 _ (fun i => rfl)

/-- The quarter pipe has `4 * segments + 8` vertices. -/
theorem quarter_pipe_vcount (r w : α) (s : ℕ) :
    (generate_quarter_pipe r w s).vertices.length = 4 * s + 8 := by
  simp [generate_quarter_pipe, List.length_append, qpCurveVerts_length,
    qpSideVerts_length]
  ring

/-- The quarter pipe satisfies the mesh invariant for every radius,
width and segment count. -/
theorem meshOK_quarter_pipe (r w : α) (s : ℕ) :
    meshOK (generate_quarter_pipe r w s) := by
  constructor
  · simp only [generate_quarter_pipe, List.length_append, qpCurveIdx_length,
      qpCurveVerts_length, qpSideVerts_length,
      length_flatMap_triple, length_flatMap_triple2]
    omega
  · intro x hx
    rw [quarter_pipe_vcount]
    simp only [generate_quarter_pipe, List.mem_append, List.length_append,
      qpCurveVerts_length, qpSideVerts_length] at hx
    rcases hx with (hx | hx) | hx
    · simp only [qpCurveIdx, List.mem_flatMap, List.mem_range] at hx
      obtain ⟨i, hi, hmem⟩ := hx
      simp only [List.mem_cons, List.not_mem_nil, or_false] at hmem
      omega
    · simp only [List.mem_flatMap, List.mem_range] at hx
      obtain ⟨i, hi, hmem⟩ := hx
      simp only [List.mem_cons, List.not_mem_nil, or_false] at hmem
      omega
    · simp only [List.mem_flatMap, List.mem_range] at hx
      obtain ⟨i, hi, hmem⟩ := hx
      simp only [List.mem_cons, List.not_mem_nil, or_false] at hmem
      omega

/-- The index structure of the box is independent of the scalar
interpretation and the dimension parameters. -/
theorem generate_box_indices_eq (w h d ox oy oz : α) :
    (generate_box w h d ox oy oz).indices
      = (generate_box (1 : ℚ) 1 1 0 0 0).indices := rfl

/-- The box has 24 vertices. -/
theorem generate_box_vcount (w h d ox oy oz : α) :
    (generate_box w h d ox oy oz).vertices.length = 24 := rfl

/-- The box satisfies the mesh invariant. -/
theorem meshOK_box (w h d ox oy oz : α) :
    meshOK (generate_box w h d ox oy oz) := by
  constructor
  · rw [generate_box_indices_eq]; decide
  · intro i hi
    rw [generate_box_vcount]
    rw [generate_box_indices_eq] at hi
    exact (by decide :
      ∀ x ∈ (generate_box (1 : ℚ) 1 1 0 0 0).indices, x < 24) i hi

/-- The box has 36 indices. -/
theorem generate_box_icount (w h d ox oy oz : α) :
    (generate_box w h d ox oy oz).indices.length = 36 := rfl

/-- A fold whose step appends a vertex block and an index block whose
entries are below the new vertex count appends, over the whole list, a
vertex block and an index block with the same two properties, the index
block length staying a multiple of 3. -/
theorem foldl_blocks_strong {γ β : Type}
    (step : (List β × List ℕ) → γ → (List β × List ℕ))
    (h : ∀ acc i, ∃ vs idx, step acc i = (acc.1 ++ vs, acc.2 ++ idx)
        ∧ idx.length % 3 = 0 ∧ ∀ x ∈ idx, x < (acc.1 ++ vs).length) :
    ∀ (l : List γ) (acc : List β × List ℕ),
      ∃ vs idx, l.foldl step acc = (acc.1 ++ vs, acc.2 ++ idx)
        ∧ idx.length % 3 = 0 ∧ ∀ x ∈ idx, x < (acc.1 ++ vs).length := by
  intro l
  induction l with
  | nil =>
      intro acc
      exact ⟨[], [], by simp, by simp, by simp⟩
  | cons a t ih =>
      intro acc
      obtain ⟨vs, idx, he, h3, hb⟩ := h acc a
      obtain ⟨vs2, idx2, he2, h32, hb2⟩ := ih (step acc a)
      rw [he] at he2 hb2
      refine ⟨vs ++ vs2, idx ++ idx2, ?_, ?_, ?_⟩
      · rw [List.foldl_cons, he]
        simpa [List.append_assoc] using he2
      · simp only [List.length_append]
        omega
      · intro x hx
        simp only [List.length_append] at hb hb2 ⊢
        rcases List.mem_append.mp hx with hx | hx
        · have := hb x hx
          omega
        · have := hb2 x hx
          omega

/-- A mesh assembled from `([], [])` by an append-blocks fold satisfies
the mesh invariant. -/
theorem meshOK_of_fold {γ : Type}
    (step : (List (Vertex α) × List ℕ) → γ → (List (Vertex α) × List ℕ))
    (h : ∀ acc i, ∃ vs idx, step acc i = (acc.1 ++ vs, acc.2 ++ idx)
        ∧ idx.length % 3 = 0 ∧ ∀ x ∈ idx, x < (acc.1 ++ vs).length)
    (l : List γ) (k : ℕ) :
    meshOK { vertices := (l.foldl step ([], [])).1,
             indices := (l.foldl step ([], [])).2,
             material_index := k } := by
  obtain ⟨vs, idx, he, h3, hb⟩ := foldl_blocks_strong step h l ([], [])
  rw [he]
  exact ⟨by simpa using h3, by simpa using hb⟩

/-- The main-bar loop body of the rail appends one block of four
vertices and six in-range indices. -/
theorem railBarStep_blocks (l h r : α) :
    ∀ (acc : List (Vertex α) × List ℕ) (i : ℕ), ∃ vs idx,
      railBarStep l h r acc i = (acc.1 ++ vs, acc.2 ++ idx)
      ∧ idx.length % 3 = 0 ∧ ∀ x ∈ idx, x < (acc.1 ++ vs).length := by
  intro acc i
  refine ⟨_, _, rfl, by simp, ?_⟩
  intro x hx
  simp only [List.mem_cons, List.not_mem_nil, or_false] at hx
  simp only [List.length_append, List.length_cons, List.length_nil]
  omega

/-- The support-post loop body of the rail appends one block of four
vertices and six in-range indices. -/
theorem railSupportStep_blocks (h sx : α) :
    ∀ (acc : List (Vertex α) × List ℕ) (i : ℕ), ∃ vs idx,
      railSupportStep h sx acc i = (acc.1 ++ vs, acc.2 ++ idx)
      ∧ idx.length % 3 = 0 ∧ ∀ x ∈ idx, x < (acc.1 ++ vs).length := by
  intro acc i
  refine ⟨_, _, rfl, by simp, ?_⟩
  intro x hx
  simp only [List.mem_cons, List.not_mem_nil, or_false] at hx
  simp only [List.length_append, List.length_cons, List.length_nil]
  omega

/-- The rail satisfies the mesh invariant. -/
theorem meshOK_rail (l h r : α) : meshOK (generate_rail l h r) := by
  have houter : ∀ (acc : List (Vertex α) × List ℕ) (sx : α), ∃ vs idx,
      (fun acc0 sx => (List.range 8).foldl (railSupportStep h sx) acc0) acc sx
        = (acc.1 ++ vs, acc.2 ++ idx)
      ∧ idx.length % 3 = 0 ∧ ∀ x ∈ idx, x < (acc.1 ++ vs).length := by
    intro acc sx
    exact foldl_blocks_strong _ (railSupportStep_blocks h sx) (List.range 8) acc
  obtain ⟨vs1, idx1, he1, h31, hb1⟩ :=
    foldl_blocks_strong _ (railBarStep_blocks l h r) (List.range 8) ([], [])
  obtain ⟨vs2, idx2, he2, h32, hb2⟩ :=
    foldl_blocks_strong _ houter [-(l / 2) + 1 / 2, l / 2 - 1 / 2]
      ((List.range 8).foldl (railBarStep l h r) ([], []))
  show meshOK
    { vertices := (([-(l / 2) + 1 / 2, l / 2 - 1 / 2] : List α).foldl
        (fun acc0 sx => (List.range 8).foldl (railSupportStep h sx) acc0)
        ((List.range 8).foldl (railBarStep l h r) ([], []))).1,
      indices := (([-(l / 2) + 1 / 2, l / 2 - 1 / 2] : List α).foldl
        (fun acc0 sx => (List.range 8).foldl (railSupportStep h sx) acc0)
        ((List.range 8).foldl (railBarStep l h r) ([], []))).2,
      material_index := 3 }
  rw [he2, he1]
  simp only [List.nil_append] at hb1 hb2 ⊢
  constructor
  · simp only [List.length_append]
    omega
  · intro x hx
    rw [he1] at hb2
    simp only [List.nil_append, List.length_append] at hb2
    rcases List.mem_append.mp hx with hx | hx
    · have := hb1 x hx
      simp only [List.length_append]
      omega
    · have := hb2 x hx
      simp only [List.length_append]
      omega

/-- The stairs loop body appends one box sub-mesh with rebased in-range
indices. -/
theorem stairsStep_blocks (sh sd sw : α) :
    ∀ (acc : List (Vertex α) × List ℕ) (i : ℕ), ∃ vs idx,
      stairsStep sh sd sw acc i = (acc.1 ++ vs, acc.2 ++ idx)
      ∧ idx.length % 3 = 0 ∧ ∀ x ∈ idx, x < (acc.1 ++ vs).length := by
  intro acc i
  refine ⟨(stairStepBox sh sd sw i).vertices,
    (stairStepBox sh sd sw i).indices.map (fun idx => idx + acc.1.length),
    rfl, ?_, ?_⟩
  · simp [List.length_map, stairStepBox_icount]
  · intro x hx
    simp only [List.mem_map] at hx
    obtain ⟨y, hy, hxy⟩ := hx
    have hOK : meshOK (stairStepBox sh sd sw i) :=
      meshOK_box sw sh sd 0 (sh * ((i : α) + 1 / 2)) (-(sd * (i : α)))
    have hy24 := hOK.2 y hy
    rw [stairStepBox_vcount] at hy24
    simp only [List.length_append, stairStepBox_vcount]
    omega

/-- The stairs satisfy the mesh invariant for every step count and all
dimensions. -/
theorem meshOK_stairs (n : ℕ) (sh sd sw : α) :
    meshOK (generate_stairs n sh sd sw) :=
  meshOK_of_fold _ (stairsStep_blocks sh sd sw) (List.range n) 1

/-- The bench satisfies the mesh invariant. -/
theorem meshOK_bench : meshOK (generate_bench (α := α)) := by
  have hstep : ∀ (acc : List (Vertex α) × List ℕ) (x_offset : α), ∃ vs idx,
      (fun (acc : List (Vertex α) × List ℕ) x_offset =>
        let base := acc.1.length
        let leg := generate_box (1 / 10 : α) (1 / 2) (1 / 2) x_offset (1 / 4) 0
        (acc.1 ++ leg.vertices, acc.2 ++ leg.indices.map (fun idx => idx + base)))
        acc x_offset = (acc.1 ++ vs, acc.2 ++ idx)
      ∧ idx.length % 3 = 0 ∧ ∀ x ∈ idx, x < (acc.1 ++ vs).length := by
    intro acc xo
    refine ⟨_, _, rfl, ?_, ?_⟩
    · simp [List.length_map, generate_box_icount]
    · intro x hx
      simp only [List.mem_map] at hx
      obtain ⟨y, hy, hxy⟩ := hx
      have hy24 := (meshOK_box (1 / 10 : α) (1 / 2) (1 / 2) xo (1 / 4) 0).2 y hy
      rw [generate_box_vcount] at hy24
      simp only [List.length_append, generate_box_vcount]
      omega
  obtain ⟨vs, idx, he, h3, hb⟩ := foldl_blocks_strong _ hstep
    ([-(4 / 5), 4 / 5] : List α)
    ((generate_box (2 : α) (1 / 10) (1 / 2) 0 (1 / 2) 0).vertices,
     (generate_box (2 : α) (1 / 10) (1 / 2) 0 (1 / 2) 0).indices)
  show meshOK
    { vertices := (([-(4 / 5), 4 / 5] : List α).foldl
        (fun (acc : List (Vertex α) × List ℕ) x_offset =>
          let base := acc.1.length
          let leg := generate_box (1 / 10 : α) (1 / 2) (1 / 2) x_offset (1 / 4) 0
          (acc.1 ++ leg.vertices, acc.2 ++ leg.indices.map (fun idx => idx + base)))
        ((generate_box (2 : α) (1 / 10) (1 / 2) 0 (1 / 2) 0).vertices,
         (generate_box (2 : α) (1 / 10) (1 / 2) 0 (1 / 2) 0).indices)).1,
      indices := (([-(4 / 5), 4 / 5] : List α).foldl
        (fun (acc : List (Vertex α) × List ℕ) x_offset =>
          let base := acc.1.length
          let leg := generate_box (1 / 10 : α) (1 / 2) (1 / 2) x_offset (1 / 4) 0
          (acc.1 ++ leg.vertices, acc.2 ++ leg.indices.map (fun idx => idx + base)))
        ((generate_box (2 : α) (1 / 10) (1 / 2) 0 (1 / 2) 0).vertices,
         (generate_box (2 : α) (1 / 10) (1 / 2) 0 (1 / 2) 0).indices)).2,
      material_index := 5 }
  rw [he]
  constructor
  · simp only [List.length_append, generate_box_icount]
    omega
  · intro x hx
    rcases List.mem_append.mp hx with hx | hx
    · have := (meshOK_box (2 : α) (1 / 10) (1 / 2) 0 (1 / 2) 0).2 x hx
      rw [generate_box_vcount] at this
      simp only [List.length_append, generate_box_vcount]
      omega
    · exact hb x hx

set_option maxHeartbeats 1000000 in
/-- The index structure of the pyramid is independent of the scalar
interpretation and the parameters. -/
theorem generate_pyramid_indices_eq (br h : α) :
    (generate_pyramid br h).indices = (generate_pyramid (1 : ℚ) 1).indices := rfl

set_option maxHeartbeats 1000000 in
/-- The pyramid has 16 vertices. -/
theorem generate_pyramid_vcount (br h : α) :
    (generate_pyramid br h).vertices.length = 16 := rfl

set_option maxHeartbeats 1000000 in
/-- The index structure of the kicker is independent of the scalar
interpretation and the parameters. -/
theorem generate_kicker_indices_eq (l h w : α) :
    (generate_kicker l h w).indices = (generate_kicker (1 : ℚ) 1 1).indices := rfl

set_option maxHeartbeats 1000000 in
/-- The kicker has 26 vertices. -/
theorem generate_kicker_vcount (l h w : α) :
    (generate_kicker l h w).vertices.length = 26 := rfl

set_option maxHeartbeats 1000000 in
/-- The index structure of the slope is independent of the scalar
interpretation and the parameters. -/
theorem generate_slope_indices_eq (l h w : α) :
    (generate_slope l h w).indices = (generate_slope (1 : ℚ) 1 1).indices := rfl

set_option maxHeartbeats 1000000 in
/-- The slope has 18 vertices. -/
theorem generate_slope_vcount (l h w : α) :
    (generate_slope l h w).vertices.length = 18 := rfl

/-- The pyramid satisfies the mesh invariant. -/
theorem meshOK_pyramid (br h : α) : meshOK (generate_pyramid br h) := by
  constructor
  · rw [generate_pyramid_indices_eq]; decide
  · intro i hi
    rw [generate_pyramid_vcount]
    rw [generate_pyramid_indices_eq] at hi
    exact (by decide :
      ∀ x ∈ (generate_pyramid (1 : ℚ) 1).indices, x < 16) i hi

/-- The kicker satisfies the mesh invariant. -/
theorem meshOK_kicker (l h w : α) : meshOK (generate_kicker l h w) := by
  constructor
  · rw [generate_kicker_indices_eq]; decide
  · intro i hi
    rw [generate_kicker_vcount]
    rw [generate_kicker_indices_eq] at hi
    exact (by decide :
      ∀ x ∈ (generate_kicker (1 : ℚ) 1 1).indices, x < 26) i hi

/-- The slope satisfies the mesh invariant. -/
theorem meshOK_slope (l h w : α) : meshOK (generate_slope l h w) := by
  constructor
  · rw [generate_slope_indices_eq]; decide
  · intro i hi
    rw [generate_slope_vcount]
    rw [generate_slope_indices_eq] at hi
    exact (by decide :
      ∀ x ∈ (generate_slope (1 : ℚ) 1 1).indices, x < 18) i hi

/-- Changing only the material index preserves the mesh invariant. -/
theorem meshOK_setMat (m : Mesh α) (k : ℕ) (h : meshOK m) :
    meshOK { m with material_index := k } := h

/-- The ledge satisfies the mesh invariant. -/
theorem meshOK_ledge (l h d : α) : meshOK (generate_ledge l h d) :=
  meshOK_setMat _ 1 (meshOK_box l h d 0 (h / 2) 0)

/-- The manual pad satisfies the mesh invariant. -/
theorem meshOK_manual_pad (l h w : α) : meshOK (generate_manual_pad l h w) :=
  meshOK_setMat _ 1 (meshOK_box l h w 0 (h / 2) 0)

/-- The flat ground satisfies the mesh invariant. -/
theorem meshOK_ground_flat (s : α) : meshOK (generate_ground_flat s) :=
  meshOK_setMat _ 0 (meshOK_box s (1 / 2) s 0 (-(1 / 4)) 0)

/-- C4: for every generator in the object catalog and every valid
parameter choice (positive dimensions, positive segment and step
counts), the returned mesh has an index list whose length is a multiple
of 3 with every index in `[0, vertex_count)`. -/
theorem C4_generator_invariants {α : Type} [TrigField α] :
    (∀ w h d ox oy oz : α, 0 < w → 0 < h → 0 < d →
      meshOK (generate_box w h d ox oy oz))
    ∧ (∀ (r w : α) (s : ℕ), 0 < r → 0 < w → 0 < s →
      meshOK (generate_quarter_pipe r w s))
    ∧ (∀ br h : α, 0 < br → 0 < h → meshOK (generate_pyramid br h))
    ∧ (∀ l h r : α, 0 < l → 0 < h → 0 < r → meshOK (generate_rail l h r))
    ∧ (∀ (n : ℕ) (sh sd sw : α), 0 < n → 0 < sh → 0 < sd → 0 < sw →
      meshOK (generate_stairs n sh sd sw))
    ∧ (∀ l h w : α, 0 < l → 0 < h → 0 < w → meshOK (generate_kicker l h w))
    ∧ (∀ l h w : α, 0 < l → 0 < h → 0 < w → meshOK (generate_slope l h w))
    ∧ (∀ l h d : α, 0 < l → 0 < h → 0 < d → meshOK (generate_ledge l h d))
    ∧ (∀ l h w : α, 0 < l → 0 < h → 0 < w → meshOK (generate_manual_pad l h w))
    ∧ (∀ s : α, 0 < s → meshOK (generate_ground_flat s))
    ∧ meshOK (generate_bench (α := α)) :=
  ⟨fun w h d ox oy oz _ _ _ => meshOK_box w h d ox oy oz,
   fun r w s _ _ _ => meshOK_quarter_pipe r w s,
   fun br h _ _ => meshOK_pyramid br h,
   fun l h r _ _ _ => meshOK_rail l h r,
   fun n sh sd sw _ _ _ _ => meshOK_stairs n sh sd sw,
   fun l h w _ _ _ => meshOK_kicker l h w,
   fun l h w _ _ _ => meshOK_slope l h w,
   fun l h d _ _ _ => meshOK_ledge l h d,
   fun l h w _ _ _ => meshOK_manual_pad l h w,
   fun s _ => meshOK_ground_flat s,
   meshOK_bench⟩

/-- C4 witness: the mesh invariant evaluated at the default catalog
parameters over the rational interpretation. -/
theorem C4_generator_invariants_witness :
    meshOK (generate_box (3 / 5 : ℚ) (4 / 5) (3 / 5) 0 (2 / 5) 0)
    ∧ meshOK (generate_quarter_pipe (3 : ℚ) 6 12)
    ∧ meshOK (generate_pyramid (3 : ℚ) 2)
    ∧ meshOK (generate_rail (6 : ℚ) (4 / 5) (2 / 25))
    ∧ meshOK (generate_stairs 3 (2 / 5 : ℚ) 1 3)
    ∧ meshOK (generate_kicker (2 : ℚ) (3 / 2) 3)
    ∧ meshOK (generate_slope (5 : ℚ) 2 5)
    ∧ meshOK (generate_ledge (5 : ℚ) (3 / 5) (4 / 5))
    ∧ meshOK (generate_manual_pad (4 : ℚ) (3 / 10) 2)
    ∧ meshOK (generate_ground_flat (10 : ℚ))
    ∧ meshOK (generate_bench (α := ℚ)) :=
  ⟨C4_generator_invariants.1 (3 / 5) (4 / 5) (3 / 5) 0 (2 / 5) 0
     (by norm_num) (by norm_num) (by norm_num),
   C4_generator_invariants.2.1 3 6 12 (by norm_num) (by norm_num) (by norm_num),
   C4_generator_invariants.2.2.1 3 2 (by norm_num) (by norm_num),
   C4_generator_invariants.2.2.2.1 6 (4 / 5) (2 / 25) (by norm_num)
     (by norm_num) (by norm_num),
   C4_generator_invariants.2.2.2.2.1 3 (2 / 5) 1 3 (by norm_num) (by norm_num)
     (by norm_num) (by norm_num),
   C4_generator_invariants.2.2.2.2.2.1 2 (3 / 2) 3 (by norm_num) (by norm_num)
     (by norm_num),
   C4_generator_invariants.2.2.2.2.2.2.1 5 2 5 (by norm_num) (by norm_num)
     (by norm_num),
   C4_generator_invariants.2.2.2.2.2.2.2.1 5 (3 / 5) (4 / 5) (by norm_num)
     (by norm_num) (by norm_num),
   C4_generator_invariants.2.2.2.2.2.2.2.2.1 4 (3 / 10) 2 (by norm_num)
     (by norm_num) (by norm_num),
   C4_generator_invariants.2.2.2.2.2.2.2.2.2.1 10 (by norm_num),
   C4_generator_invariants.2.2.2.2.2.2.2.2.2.2⟩

/-- The ledge has 24 vertices. -/
theorem generate_ledge_vcount (l h d : α) :
    (generate_ledge l h d).vertices.length = 24 := rfl

/-- C8: for an input whose object list is exactly one ledge descriptor,
the global vertex-count line of the output equals the ground-mesh
vertex count plus 24, and the emitted material table is the fixed
six-entry table with the hard-coded RGB triples, independent of the
input. -/
theorem C8_ledge_export {α : Type} [TrigField α] (fmt : α → String)
    (textures : List String) (o : ObjDesc α) (h : o.type = some "ledge") :
    totalVertexCount (assembleScene [o]).1
        = (ground_mesh α).vertices.length + 24
    ∧ write_trueskate_txt fmt (assembleScene [o]).1 textures =
        filePrelude ++ [toString textures.length ++ " #Num Textures"]
        ++ textures
        ++ ["6 #Num Materials"] ++ material_colors.flatMap materialBlock
        ++ [toString ((ground_mesh α).vertices.length + 24) ++ " #Num Vertices"]
        ++ (assembleScene [o]).1.flatMap meshHeaderBlock
        ++ (assembleScene [o]).1.flatMap (meshVertexBlock fmt)
        ++ (assembleScene [o]).1.flatMap meshIndexBlock
    ∧ material_colors.length = 6
    ∧ material_colors =
        [(128, 128, 130), (100, 100, 105), (85, 85, 90),
         (180, 180, 180), (136, 85, 51), (139, 69, 19)] := by
  have ht : descType o = "ledge" := by simp [descType, h]
  have ha : assembleObject o = some
      { vertices := (generate_ledge (5 : α) (3 / 5) (4 / 5)).vertices.map
          (fun v => transform_vertex v (descPos o) (descRot o) (descScale o)),
        indices := (generate_ledge (5 : α) (3 / 5) (4 / 5)).indices,
        material_index := (generate_ledge (5 : α) (3 / 5) (4 / 5)).material_index } := by
    simp [assembleObject, ht, OBJECT_GENERATORS, List.lookup]
  have hscene : (assembleScene [o]).1 =
      [ground_mesh α,
       { vertices := (generate_ledge (5 : α) (3 / 5) (4 / 5)).vertices.map
           (fun v => transform_vertex v (descPos o) (descRot o) (descScale o)),
         indices := (generate_ledge (5 : α) (3 / 5) (4 / 5)).indices,
         material_index := (generate_ledge (5 : α) (3 / 5) (4 / 5)).material_index }] := by
    simp [assembleScene_spec, ha]
  have h1 : totalVertexCount (assembleScene [o]).1
      = (ground_mesh α).vertices.length + 24 := by
    rw [hscene]
    simp [totalVertexCount, List.length_map, generate_ledge_vcount]
  have h1b : ((assembleScene [o]).1.map (fun m => m.vertices.length)).sum
      = (ground_mesh α).vertices.length + 24 := h1
  refine ⟨h1, ?_, rfl, rfl⟩
  simp [write_trueskate_txt, h1b, List.append_assoc]

/-- C8 witness: the spec input, a ledge at position (1, 0, 2) with
scale 2, over the rational interpretation. -/
theorem C8_ledge_export_witness :
    ((⟨some "ledge", some ⟨1, 0, 2⟩, none, some 2⟩ : ObjDesc ℚ).type
        = some "ledge")
    ∧ totalVertexCount
        (assembleScene
          [(⟨some "ledge", some ⟨1, 0, 2⟩, none, some 2⟩ : ObjDesc ℚ)]).1
      = (ground_mesh ℚ).vertices.length + 24 :=
  ⟨rfl,
   (C8_ledge_export (fun _ => "") ["concrete_gray"]
     (⟨some "ledge", some ⟨1, 0, 2⟩, none, some 2⟩ : ObjDesc ℚ) rfl).1⟩

end TSMap
